import Mathlib

/-!
Verification of the TelegramMailBridge mail ingestion, storage, routing and
notification pipeline. The Python sources (src/services/smtp_handler.py,
src/core/redis_storage.py, src/core/dns_validator.py,
src/services/telegram_handler.py) are shallowly embedded below: pure string
manipulation is modelled on `List Char` (Lean's built-in `String` primitives
do not reduce in the kernel), the Redis key-value store is modelled as
association lists plus a sorted-set for the recency index, and the external
collaborators (email parser, DNS resolver library, Telegram transport, Redis
connection) are modelled as oracles whose outcomes (success / raised
exception) are inputs to the embedded functions, mirroring the `try/except`
structure of the code.
-/

namespace MailBridge

/-! ### Generic character-list and association-list helpers -/

/-- Python's `str.split(c)`: split a character list on every occurrence of
`c`; always returns at least one (possibly empty) field. -/
def splitOnChar (c : Char) : List Char → List (List Char)
  | [] => [[]]
  | x :: xs =>
    if x = c then [] :: splitOnChar c xs
    else
      match splitOnChar c xs with
      | [] => [[x]]
      | y :: ys => (x :: y) :: ys

/-- Python's `str.strip()`: drop whitespace from both ends. -/
def trimL (l : List Char) : List Char :=
  ((l.dropWhile Char.isWhitespace).reverse.dropWhile Char.isWhitespace).reverse

/-- Python's `str.lower()` (ASCII case folding suffices for the claims). -/
def lowerL (l : List Char) : List Char := l.map Char.toLower

/-- Python's `str.rstrip('.')` on a string. -/
def rstripDots (s : String) : String :=
  ⟨(s.data.reverse.dropWhile (fun c => c == '.')).reverse⟩

/-- Python's `str.strip('"')` on a string. -/
def stripQuotes (s : String) : String :=
  ⟨((s.data.dropWhile (fun c => c == '"')).reverse.dropWhile (fun c => c == '"')).reverse⟩

/-- Lexicographic comparison of character lists (byte order on code points),
modelling the member ordering Redis uses inside a sorted set. -/
def lexLt : List Char → List Char → Bool
  | [], [] => false
  | [], _ :: _ => true
  | _ :: _, [] => false
  | a :: as, b :: bs => a.toNat < b.toNat || (a.toNat = b.toNat && lexLt as bs)

/-- Dictionary lookup (`k in d` / `d[k]`). -/
def kvGet {α : Type} (l : List (String × α)) (k : String) : Option α :=
  (l.find? (fun e => e.1 == k)).map Prod.snd

/-- Dictionary update (`d[k] = v`): replace the binding if present,
otherwise append. -/
def kvSet {α : Type} : List (String × α) → String → α → List (String × α)
  | [], k, v => [(k, v)]
  | e :: es, k, v => if e.1 == k then (k, v) :: es else e :: kvSet es k v

theorem kvGet_kvSet_self {α : Type} (l : List (String × α)) (k : String) (v : α) :
    kvGet (kvSet l k v) k = some v := by
  induction l with
  | nil => simp [kvGet, kvSet, List.find?]
  | cons e es ih =>
    by_cases h : e.1 = k
    · simp [kvGet, kvSet, h, List.find?]
    · have hb : (e.1 == k) = false := by simp [h]
      simp only [kvSet, hb, if_false]
      simpa [kvGet, List.find?, hb] using ih

/-! ### DNS validator (src/core/dns_validator.py)

The `dns.resolver` library is an external collaborator: it is modelled as an
oracle (`Resolver`) that, per record type and query name, either returns the
typed answers or raises.  `DnsErr.noAnswer` / `DnsErr.nxdomain` model the
`dns.resolver.NoAnswer` / `NXDOMAIN` exceptions that `_get_mx_records`
handles specially; every other exception is `DnsErr.other msg`. -/

inductive DnsErr : Type
  | noAnswer
  | nxdomain
  | other (msg : String)
deriving Repr, DecidableEq

/-- A raw MX answer from the resolver (`rdata.preference`, `rdata.exchange`,
rrset TTL). -/
structure RawMx where
  preference : Nat
  exchange : String
  ttl : Option Nat
deriving Repr, DecidableEq

/-- A raw SOA answer from the resolver. -/
structure RawSoa where
  mname : String
  rname : String
  serial : Nat
  refresh : Nat
  retry : Nat
  expire : Nat
  minimum : Nat
deriving Repr, DecidableEq

/-- The resolver oracle: `self.resolver.resolve(name, rtype)` per record
type.  An `Except.error` models the call raising an exception. -/
structure Resolver where
  mx : String → Except DnsErr (List RawMx)
  txt : String → Except DnsErr (List String)
  ns : String → Except DnsErr (List String)
  soa : String → Except DnsErr (List RawSoa)
  a : String → Except DnsErr (List String)
  ptr : String → Except DnsErr (List String)

/-- An entry of `report['mx_records']`; `resolved` is the key added by the
A-record loop in `validate_domain_mx` (absent until then). -/
structure MxRec where
  priority : Nat
  host : String
  ttl : Option Nat
  resolved : Option Bool
deriving Repr, DecidableEq

/-- An entry of `report['a_records']`; `ptr` is the key added by the PTR
loop (absent until then). -/
structure ARec where
  host : String
  ip : String
  ptr : Option (List String)
deriving Repr, DecidableEq

/-- `report['soa_record']`. -/
structure SoaRec where
  mname : String
  rname : String
  serial : Nat
  refresh : Nat
  retry : Nat
  expire : Nat
  minimum : Nat
deriving Repr, DecidableEq

/-- The report dictionary built by `validate_domain_mx`, fields in source
order. -/
structure Report where
  domain : String
  timestamp : String
  mx_records : List MxRec
  txt_records : List String
  a_records : List ARec
  ns_records : List String
  soa_record : Option SoaRec
  has_mx : Bool
  errors : List String
deriving Repr, DecidableEq

/-- The freshly initialised report dictionary. -/
def empty_report (target ts : String) : Report :=
  ⟨target, ts, [], [], [], [], none, false, []⟩

/-- `domain or self.config.get('target_domain', 't.me')`: Python `or` falls
through on `None` and on the empty string. -/
def effective_target (cfg : String) (dom : Option String) : String :=
  match dom with
  | none => cfg
  | some d => if d.data.isEmpty then cfg else d

/-- `_get_mx_records`: `NoAnswer`/`NXDOMAIN` yield `[]`; any other resolver
exception is re-raised (`Except.error`).  Hostnames get `str(...).rstrip('.')`. -/
def get_mx_records (r : Resolver) (domain : String) : Except String (List MxRec) :=
  match r.mx domain with
  | .ok l => .ok (l.map (fun m => ⟨m.preference, rstripDots m.exchange, m.ttl, none⟩))
  | .error .noAnswer => .ok []
  | .error .nxdomain => .ok []
  | .error (.other msg) => .error msg

/-- `_get_txt_records`: every exception is swallowed, yielding `[]`. -/
def get_txt_records (r : Resolver) (domain : String) : List String :=
  match r.txt domain with
  | .ok l => l.map stripQuotes
  | .error _ => []

/-- `_get_ns_records`: every exception is swallowed, yielding `[]`. -/
def get_ns_records (r : Resolver) (domain : String) : List String :=
  match r.ns domain with
  | .ok l => l.map rstripDots
  | .error _ => []

/-- `_get_soa_record`: first answer if any; every exception yields `None`. -/
def get_soa_record (r : Resolver) (domain : String) : Option SoaRec :=
  match r.soa domain with
  | .ok (s :: _) =>
    some ⟨rstripDots s.mname, rstripDots s.rname, s.serial, s.refresh,
      s.retry, s.expire, s.minimum⟩
  | .ok [] => none
  | .error _ => none

/-- `_get_a_records`: every exception is swallowed, yielding `[]`. -/
def get_a_records (r : Resolver) (hostname : String) : List ARec :=
  match r.a hostname with
  | .ok ips => ips.map (fun ip => ⟨hostname, ip, none⟩)
  | .error _ => []

/-- The reverse-lookup query name built by `_get_ptr_records`. -/
def ptr_query (ip : String) : String :=
  if ip.data.contains ':' then
    ⟨List.intercalate ['.'] (splitOnChar ':' ip.data).reverse⟩ ++ ".ip6.arpa"
  else
    ⟨List.intercalate ['.'] (splitOnChar '.' ip.data).reverse⟩ ++ ".in-addr.arpa"

/-- `_get_ptr_records`: every exception is swallowed, yielding `[]`. -/
def get_ptr_records (r : Resolver) (ip : String) : List String :=
  match r.ptr (ptr_query ip) with
  | .ok l => l.map rstripDots
  | .error _ => []

/-- `DNSSystemValidator.validate_domain_mx`.  The whole resolution sequence
sits in a `try`; the only step able to raise is `_get_mx_records` (all other
helpers catch every exception internally), so the `except` branch fires
exactly when the MX step re-raises, appending to `errors` and returning the
partial (initial) report.  The function is total: it never raises to its
caller. -/
def validate_domain_mx (r : Resolver) (cfg : String) (dom : Option String)
    (ts : String) : Report :=
  let target := effective_target cfg dom
  let report := empty_report target ts
  match get_mx_records r target with
  | .error e => { report with errors := report.errors ++ ["Критическая ошибка: " ++ e] }
  | .ok mx0 =>
    let txt := get_txt_records r target
    let nss := get_ns_records r target
    let soa := get_soa_record r target
    let pairs := mx0.map (fun m => (m, get_a_records r m.host))
    let mxs := pairs.map (fun p => { p.1 with resolved := some (decide (p.2.length > 0)) })
    let ars := (pairs.map Prod.snd).flatten
    let ars := (ars.take 3).map (fun a => { a with ptr := some (get_ptr_records r a.ip) })
      ++ ars.drop 3
    { report with
        mx_records := mxs
        has_mx := decide (mx0.length > 0)
        txt_records := txt
        ns_records := nss
        soa_record := soa
        a_records := ars }

/-! ### Message store (src/core/redis_storage.py)

The Redis database is modelled as explicit state: two string-keyed maps for
the `email:raw:{id}` / `email:meta:{id}` keys (key expiry = key absence),
one map for the `index:domain:{domain}` sets, and one member→score list for
the `index:timestamp` sorted set.  Scores (`datetime.utcnow().timestamp()`)
are modelled as natural epoch seconds.  `pickle`/`json` serialisation is a
faithful round trip and is modelled as the identity. -/

/-- The metadata dictionary built by `_extract_metadata` (fields in source
order; `from`/`to` are Lean keywords, hence `from_addr`/`to_addr`).
`dns_report` is attached by `handle_message` after validation; `none` models
both "not yet attached" and the validator-unavailable fallback dictionary
(which carries no `mx_records` key). -/
structure Metadata where
  message_id : String
  from_addr : String
  to_addr : String
  cc : String
  bcc : String
  subject : String
  date : String
  recipient_domain : String
  received_at : String
  headers : List (String × String)
  dns_report : Option Report
deriving Repr, DecidableEq

/-- State of the Redis database. -/
structure Store where
  raw : List (String × String)
  meta : List (String × Metadata)
  domainIndex : List (String × List String)
  recency : List (String × Nat)
deriving Repr, DecidableEq

def emptyStore : Store := ⟨[], [], [], []⟩

/-- `SADD`: insert into a set (no duplicates). -/
def sadd (idx : List (String × List String)) (key member : String) :
    List (String × List String) :=
  match kvGet idx key with
  | none => kvSet idx key [member]
  | some ms => if ms.contains member then idx else kvSet idx key (ms ++ [member])

/-- `ZADD`: insert a member with a score, replacing an existing binding. -/
def zadd (zs : List (String × Nat)) (member : String) (score : Nat) :
    List (String × Nat) :=
  match zs with
  | [] => [(member, score)]
  | e :: es => if e.1 == member then (member, score) :: es else e :: zadd es member score

/-- `ZREMRANGEBYSCORE key lo hi`: drop members whose score lies in
`[lo, hi]` (the cleanup cutoff `now - ttl` can be negative, hence `Int`). -/
def zremrangebyscore (zs : List (String × Nat)) (lo hi : Int) : List (String × Nat) :=
  zs.filter (fun e => !(decide (lo ≤ (e.2 : Int)) && decide ((e.2 : Int) ≤ hi)))

/-- Ordering of the reversed sorted set: higher score first, ties broken by
descending member (the exact reverse of Redis's (score asc, member asc)). -/
def zscoreDesc (a b : String × Nat) : Bool :=
  b.2 < a.2 || (a.2 = b.2 && lexLt b.1.data a.1.data)

/-- Ordered insertion for `sortBy`. -/
def insertBy {α : Type} (f : α → α → Bool) (x : α) : List α → List α
  | [] => [x]
  | y :: ys => if f x y then x :: y :: ys else y :: insertBy f x ys

/-- Insertion sort by a boolean comparator. -/
def sortBy {α : Type} (f : α → α → Bool) (l : List α) : List α :=
  l.foldr (insertBy f) []

/-- Members of the sorted set in `ZREVRANGE` order (most recent first). -/
def zrevlist (zs : List (String × Nat)) : List String :=
  (sortBy zscoreDesc zs).map Prod.fst

/-- `ZREVRANGE key start stop`: inclusive index range into the descending
order, negative indexes counting from the end, clamped Redis-style. -/
def zrevrange (zs : List (String × Nat)) (start stop : Int) : List String :=
  let l := zrevlist zs
  let n : Int := l.length
  let a0 := if start < 0 then n + start else start
  let b0 := if stop < 0 then n + stop else stop
  let a := max a0 0
  let b := min b0 (n - 1)
  if b < a then [] else (l.drop a.toNat).take (b - a + 1).toNat

/-- `RedisStorage._cleanup_old_indexes`: best-effort sweep of recency-index
entries older than `now - ttl` (its own exceptions are swallowed; Redis
errors are not modelled past this point since the pipeline succeeded). -/
def cleanup_old_indexes (st : Store) (now ttl : Nat) : Store :=
  { st with recency := zremrangebyscore st.recency 0 ((now : Int) - ttl) }

/-- The body of `RedisStorage.store_email`'s `try` block: the pipelined
writes (`SETEX` raw, `SETEX` meta, `SADD` domain index, `ZADD` recency
index).  `raises = true` models `pipeline.execute()` (or any earlier
statement) raising — the pipeline is transactional, so no partial write is
applied. -/
def store_pipeline (st : Store) (email_id raw_email : String) (metadata : Metadata)
    (now : Nat) (raises : Bool) : Except String Store :=
  if raises then .error "redis error"
  else .ok
    { raw := kvSet st.raw ("email:raw:" ++ email_id) raw_email
      meta := kvSet st.meta ("email:meta:" ++ email_id) metadata
      domainIndex := sadd st.domainIndex
        ("index:domain:" ++ metadata.recipient_domain) email_id
      recency := zadd st.recency email_id now }

/-- `RedisStorage.store_email`: on success, runs the cleanup sweep and
returns `true`; any exception is caught, logged and reported as `false`
with the store unchanged.  It never raises to its caller. -/
def store_email (st : Store) (email_id raw_email : String) (metadata : Metadata)
    (now ttl : Nat) (raises : Bool) : Store × Bool :=
  match store_pipeline st email_id raw_email metadata now raises with
  | .error _ => (st, false)
  | .ok st1 => (cleanup_old_indexes st1 now ttl, true)

/-- The record returned by `retrieve_email` (the derived
`_parse_email_structure` field is recomputed display data and is omitted;
no claim depends on it). -/
structure EmailRecord where
  raw : String
  metadata : Metadata
deriving Repr, DecidableEq

/-- `RedisStorage.retrieve_email`: reads both keys; `None` if either is
absent (expired or never written). -/
def retrieve_email (st : Store) (email_id : String) : Option EmailRecord :=
  match kvGet st.raw ("email:raw:" ++ email_id),
        kvGet st.meta ("email:meta:" ++ email_id) with
  | some r, some m => some ⟨r, m⟩
  | _, _ => none

/-- `RedisStorage.search_emails`: with a domain, the (unordered) domain-set
members; otherwise `ZREVRANGE index:timestamp offset (offset+limit-1)`.
Either way the ids are capped at `limit` and each is retrieved, silently
skipping ids whose keys have expired. -/
def search_emails (st : Store) (domain : Option String) (limit offset : Nat) :
    List EmailRecord :=
  let email_ids :=
    match domain with
    | some d => (kvGet st.domainIndex ("index:domain:" ++ d)).getD []
    | none => zrevrange st.recency (offset : Int) ((offset : Int) + (limit : Int) - 1)
  (email_ids.take limit).filterMap (retrieve_email st)

/-! ### SMTP handler (src/services/smtp_handler.py)

The `email` library parser, the Telegram transport and the Cloudflare
client are external collaborators; their outcomes are oracle inputs
(`Env`).  `handle_message`'s `try/except` is modelled with `Except`:
the `.error` branch is the `except Exception` clause returning the `451`
response. -/

/-- The parsed message object produced by `message_from_bytes`:
headers plus the shape `_extract_body_preview` walks (a flat content type
and payload for non-multipart messages, the walk order of
`(content_type, payload)` parts for multipart ones). -/
structure EmailMsg where
  headers : List (String × String)
  multipart : Bool
  parts : List (String × String)
  content_type : String
  content : String
deriving Repr, DecidableEq

/-- `email_msg.get(name, '')`. -/
def msgGet (m : EmailMsg) (name : String) : String := (kvGet m.headers name).getD ""

/-- `AdvancedSMTPHandler._extract_domain`: if the address contains `@`,
Python's `split('@')[1]` — the field between the first and second `@` —
stripped and lower-cased; otherwise the sentinel `unknown`. -/
def extract_domain (email_address : String) : String :=
  if email_address.data.contains '@' then
    ⟨lowerL (trimL ((splitOnChar '@' email_address.data).getD 1 []))⟩
  else "unknown"

/-- `AdvancedSMTPHandler._extract_metadata` (with `received_at` supplied by
the clock; `dns_report` not yet attached). -/
def extract_metadata (email_msg : EmailMsg) (msg_id received_at : String) : Metadata :=
  { message_id := msg_id
    from_addr := msgGet email_msg "From"
    to_addr := msgGet email_msg "To"
    cc := msgGet email_msg "Cc"
    bcc := msgGet email_msg "Bcc"
    subject := msgGet email_msg "Subject"
    date := msgGet email_msg "Date"
    recipient_domain := extract_domain (msgGet email_msg "To")
    received_at := received_at
    headers := email_msg.headers
    dns_report := none }

/-- `AdvancedSMTPHandler._validate_recipient_dns`: runs the validator when
present (it is total, so the handler's `except` is unreachable); when absent
the fallback dictionary carries no `mx_records` key, modelled as `none`. -/
def validate_recipient_dns (validator : Option Resolver) (cfg ts domain : String) :
    Option Report :=
  validator.map (fun r => validate_domain_mx r cfg (some domain) ts)

/-- `self.default_recipients`: the three non-custom target slots. -/
structure Recipients where
  me : Option String
  channel : Option String
  group : Option String
deriving Repr, DecidableEq

/-- Python truthiness of a nullable string (`None` and `''` are falsy). -/
def truthyS (o : Option String) : Bool :=
  match o with
  | none => false
  | some s => !s.data.isEmpty

/-- `AdvancedSMTPHandler._determine_recipient`: exact domain match in
`target_mapping` first, then the `channel` slot, then the `group` slot,
else `('me', 'self')`. -/
def determine_recipient (target_mapping : List (String × String))
    (default_recipients : Recipients) (recipient_domain : String) : String × String :=
  match kvGet target_mapping recipient_domain with
  | some tid => ("custom", tid)
  | none =>
    if truthyS default_recipients.channel then
      ("channel", default_recipients.channel.getD "")
    else if truthyS default_recipients.group then
      ("group", default_recipients.group.getD "")
    else ("me", "self")

/-- `AdvancedSMTPHandler._extract_body_preview`: first 500 characters of
the first `text/plain` part (walk order) for multipart messages, of the
payload for flat `text/plain` messages, else the empty string. -/
def extract_body_preview (m : EmailMsg) : String :=
  if m.multipart then
    match m.parts.find? (fun p => p.1 == "text/plain") with
    | some p => ⟨p.2.data.take 500⟩
    | none => ""
  else if m.content_type == "text/plain" then ⟨m.content.data.take 500⟩
  else ""

/-- The DNS badge line of `_format_notification` (`✅` if `has_mx` else
`⚠️`, with the MX record count). -/
def dns_badge (rep : Report) : String :=
  "**DNS:** " ++ (if rep.has_mx then "✅" else "⚠️") ++ " "
    ++ Nat.repr rep.mx_records.length ++ " MX записей"

/-- `AdvancedSMTPHandler._format_notification`, as the `lines` list the code
builds before `"\n".join(lines)`.  The DNS badge line is appended only when
`dns_report.get('mx_records')` is truthy, i.e. the list is present and
non-empty. -/
def format_notification (counter : Nat) (msg_id : String) (metadata : Metadata)
    (body_preview : String) : List String :=
  let base :=
    [ "📧 **Новое письмо #" ++ Nat.repr counter ++ "**"
    , "`" ++ msg_id ++ "`"
    , ""
    , "**От:** `" ++ metadata.from_addr ++ "`"
    , "**Кому:** `" ++ metadata.to_addr ++ "`"
    , "**Тема:** " ++ metadata.subject
    , "**Дата:** " ++ metadata.date
    , "" ]
  let dnsSection :=
    match metadata.dns_report with
    | some rep => if rep.mx_records.isEmpty then [] else [dns_badge rep]
    | none => []
  let previewSection :=
    if body_preview.data.isEmpty then []
    else ["", "**Превью:**", "```", ⟨body_preview.data.take 200⟩ ++ "...", "```"]
  let commandSection :=
    [ ""
    , "**Команды:**"
    , "• `/view " ++ msg_id ++ "` - Просмотр полного письма"
    , "• `/source " ++ msg_id ++ "` - Исходный код письма"
    , "• `/set_target " ++ msg_id ++ " [me/channel/group/id]` - Изменить получателя" ]
  base ++ dnsSection ++ previewSection ++ commandSection

/-- Oracle inputs of one `handle_message` run: the raw bytes, the parse
outcome, the validator, configuration, the clock, and whether the Redis
pipeline / the Telegram send call (including the `int(recipient_id)`
conversion) raise. -/
structure Env where
  raw : String
  parse : Except String EmailMsg
  validator : Option Resolver
  cfg_domain : String
  ts : String
  now : Nat
  ttl : Nat
  storeRaises : Bool
  sendRaises : Bool

/-- Mutable handler state (`self`). -/
structure HandlerState where
  store : Store
  message_counter : Nat
  target_mapping : List (String × String)
  default_recipients : Recipients
deriving Repr, DecidableEq

/-- The metadata as stored: extracted fields plus the attached DNS report. -/
def message_metadata (env : Env) (email_msg : EmailMsg) (msg_id : String) : Metadata :=
  let m0 := extract_metadata email_msg msg_id env.ts
  { m0 with
      dns_report := validate_recipient_dns env.validator env.cfg_domain env.ts
        m0.recipient_domain }

/-- The body of `_send_telegram_notification`'s `try` block: pick the
recipient, bail out when the id is falsy, format, and send; a raising
transport (or `int()` conversion) is the `.error` case.  The result records
what was handed to `send_message`. -/
def send_telegram_core (env : Env) (counter : Nat)
    (target_mapping : List (String × String)) (default_recipients : Recipients)
    (msg_id : String) (email_msg : EmailMsg) (metadata : Metadata) :
    Except String (Option (String × String)) :=
  let rt := determine_recipient target_mapping default_recipients
    metadata.recipient_domain
  if rt.2.data.isEmpty then .ok none
  else
    let text := String.intercalate "\n"
      (format_notification counter msg_id metadata (extract_body_preview email_msg))
    if env.sendRaises then .error "telegram send error"
    else if rt.1 == "me" then .ok (some ("me", text))
    else .ok (some (rt.2, text))

/-- `AdvancedSMTPHandler._send_telegram_notification`: every exception is
caught and logged; a failed send is reported as `none` and never
propagates. -/
def send_telegram_notification (env : Env) (counter : Nat)
    (target_mapping : List (String × String)) (default_recipients : Recipients)
    (msg_id : String) (email_msg : EmailMsg) (metadata : Metadata) :
    Option (String × String) :=
  match send_telegram_core env counter target_mapping default_recipients msg_id
      email_msg metadata with
  | .ok r => r
  | .error _ => none

/-- The `try` block of `handle_message`: parse, extract, validate, store
(which swallows its own exceptions and reports a boolean the caller
ignores), notify (which swallows its own exceptions), integrate DNS (which
swallows its own exceptions and touches no handler state — omitted), then
the `250` response.  The only raising step is the parse. -/
def handle_message_try (hs : HandlerState) (env : Env) (msg_id : String) :
    Except (HandlerState × String)
      (HandlerState × Option (String × String) × String) :=
  match env.parse with
  | .error e => .error (hs, e)
  | .ok email_msg =>
    let metadata := message_metadata env email_msg msg_id
    let stored := store_email hs.store msg_id env.raw metadata env.now env.ttl
      env.storeRaises
    let hs1 := { hs with store := stored.1 }
    let sent := send_telegram_notification env hs1.message_counter hs1.target_mapping
      hs1.default_recipients msg_id email_msg metadata
    .ok (hs1, sent, "250 Message " ++ msg_id ++ " accepted")

/-- `AdvancedSMTPHandler.handle_message`: counter increment, then the `try`
block; the `except` clause returns the `451` transient-failure response.
The middle component records what was sent to Telegram, if anything. -/
def handle_message (hs : HandlerState) (env : Env) (msg_id : String) :
    HandlerState × Option (String × String) × String :=
  let hs0 := { hs with message_counter := hs.message_counter + 1 }
  match handle_message_try hs0 env msg_id with
  | .ok r => r
  | .error (hs1, e) => (hs1, none, "451 Temporary processing error: " ++ e)

/-! ### Administrative `set_target` command (src/services/telegram_handler.py) -/

/-- The routing targets of the data model: the three non-custom variants. -/
inductive Target : Type
  | tself
  | channel (id : String)
  | group (id : String)
deriving Repr, DecidableEq

/-- One parsed `/set_target` invocation.  `ok` models whether
`int(target_id)` and `client.get_chat(...)` succeeded (on failure the inner
`except` replies with an error and no state is touched).  `invalid` covers
every no-op path: missing arguments, malformed `custom` argument, unknown
target type. -/
inductive AdminCmd : Type
  | setMe
  | setChannel (id : String) (ok : Bool)
  | setGroup (id : String) (ok : Bool)
  | setCustom (domain id : String)
  | invalid
deriving Repr, DecidableEq

/-- The handler state the commands mutate. -/
structure BridgeState where
  target_mapping : List (String × String)
  default_recipients : Recipients
deriving Repr, DecidableEq

/-- `AdvancedSMTPHandler.__init__`: empty mapping,
`{'me': 'self', 'channel': None, 'group': None}`. -/
def init_bridge : BridgeState := ⟨[], ⟨some "self", none, none⟩⟩

/-- The state change of `set_target_command`: `me` and successful
`channel`/`group` overwrite all three slots (one live, two `None`);
`custom` writes only `target_mapping`; every other path leaves the state
unchanged. -/
def apply_set_target (st : BridgeState) (cmd : AdminCmd) : BridgeState :=
  match cmd with
  | .setMe => { st with default_recipients := ⟨some "self", none, none⟩ }
  | .setChannel id ok =>
    if ok then { st with default_recipients := ⟨none, some id, none⟩ } else st
  | .setGroup id ok =>
    if ok then { st with default_recipients := ⟨none, none, some id⟩ } else st
  | .setCustom domain id =>
    { st with target_mapping := kvSet st.target_mapping domain id }
  | .invalid => st

/-- A sequence of administrative commands applied in order. -/
def run_commands (st : BridgeState) (cmds : List AdminCmd) : BridgeState :=
  cmds.foldl apply_set_target st

/-- The non-custom target a command activates, if any. -/
def target_step (t : Target) (cmd : AdminCmd) : Target :=
  match cmd with
  | .setMe => .tself
  | .setChannel id ok => if ok then .channel id else t
  | .setGroup id ok => if ok then .group id else t
  | _ => t

/-- The target activated by the last successful non-custom command
(initially `self`). -/
def last_target (cmds : List AdminCmd) : Target :=
  cmds.foldl target_step .tself

/-- The `default_recipients` value a given active target corresponds to. -/
def recipients_of : Target → Recipients
  | .tself => ⟨some "self", none, none⟩
  | .channel id => ⟨none, some id, none⟩
  | .group id => ⟨none, none, some id⟩

/-- How many of the three slots are truthy. -/
def active_count (r : Recipients) : Nat :=
  (truthyS r.me).toNat + (truthyS r.channel).toNat + (truthyS r.group).toNat

/-- Command ids come from whitespace `split()` tokens, hence are non-empty
whenever they are used (`ok = true`). -/
def wf_cmd : AdminCmd → Bool
  | .setChannel id ok => !ok || !id.data.isEmpty
  | .setGroup id ok => !ok || !id.data.isEmpty
  | _ => true

/-- The ids of reachable targets are non-empty. -/
def wf_target : Target → Bool
  | .tself => true
  | .channel id => !id.data.isEmpty
  | .group id => !id.data.isEmpty

/-! ### Fixtures for concrete evaluations -/

/-- The field of `l` between the first occurrence of `c` and the next one
(everything after the first `c` when there is no second occurrence):
the value of Python's `l.split(c)[1]` when `c ∈ l`. -/
def fieldAfter (c : Char) (l : List Char) : List Char :=
  ((l.dropWhile (fun x => x != c)).tail).takeWhile (fun x => x != c)

/-- Modelled from the claim's words (C2): "the lower-cased substring after
the first `@`", with the `unknown` sentinel when there is no `@`. -/
def claimed_extract_domain (s : String) : String :=
  if s.data.contains '@' then
    ⟨lowerL ((s.data.dropWhile (fun x => x != '@')).tail)⟩
  else "unknown"

/-- Does a notification line carry the DNS summary badge? -/
def isDnsLine (l : String) : Bool := "**DNS:** ".data.isPrefixOf l.data

/-- A minimal stored-metadata value for concrete runs. -/
def sample_meta (id dom : String) : Metadata :=
  ⟨id, "a@a.com", "b@" ++ dom, "", "", "subj", "", dom, "ts", [], none⟩

/-- Three messages stored at epoch seconds 100, 200 and 300 (the search
ordering example of the specification). -/
def sample_store : Store :=
  (store_email
    ((store_email
      ((store_email emptyStore "id100" "raw100" (sample_meta "id100" "x.com")
        100 604800 false).1)
      "id200" "raw200" (sample_meta "id200" "x.com") 200 604800 false).1)
    "id300" "raw300" (sample_meta "id300" "y.com") 300 604800 false).1

/-- A well-formed single-part plain-text message. -/
def sample_msg : EmailMsg :=
  { headers := [("From", "a@a.com"), ("To", "b@x.com"), ("Subject", "hi")]
    multipart := false
    parts := []
    content_type := "text/plain"
    content := "hello" }

/-- Handler state at start-up: empty store, zero counter, empty mapping,
the default `me` target. -/
def init_handler : HandlerState := ⟨emptyStore, 0, [], ⟨some "self", none, none⟩⟩

/-- An ingestion in which the Redis pipeline write raises. -/
def c1_env : Env :=
  { raw := "RAW", parse := .ok sample_msg, validator := none, cfg_domain := "t.me"
    ts := "ts", now := 1000, ttl := 604800, storeRaises := true, sendRaises := false }

/-- An ingestion in which storage succeeds and the Telegram send raises. -/
def c4_env : Env := { c1_env with storeRaises := false, sendRaises := true }

/-- A resolver whose every query raises a non-lookup error. -/
def fail_resolver : Resolver :=
  { mx := fun _ => .error (.other "network unreachable")
    txt := fun _ => .ok []
    ns := fun _ => .ok []
    soa := fun _ => .ok []
    a := fun _ => .ok []
    ptr := fun _ => .ok [] }

/-- A resolver where MX resolution succeeds and TXT resolution raises. -/
def partial_resolver : Resolver :=
  { mx := fun _ => .ok [⟨10, "mx1.x.com.", some 300⟩]
    txt := fun _ => .error (.other "timeout")
    ns := fun _ => .ok []
    soa := fun _ => .ok []
    a := fun _ => .ok []
    ptr := fun _ => .ok [] }

/-- A validator report with no MX records (`has_mx = false`), as produced
for a domain without mail routing. -/
def badge_free_report : Report := ⟨"x.com", "ts", [], [], [], [], none, false, []⟩

/-- Metadata carrying `badge_free_report`. -/
def badge_free_meta : Metadata :=
  { sample_meta "msg_1" "x.com" with dns_report := some badge_free_report }

/-- A validator report with one MX record (`has_mx = true`). -/
def badge_report : Report :=
  ⟨"x.com", "ts", [⟨10, "mx1.x.com", some 300, some true⟩], [], [], [], none, true, []⟩

/-- Metadata carrying `badge_report`. -/
def badge_meta : Metadata :=
  { sample_meta "msg_1" "x.com" with dns_report := some badge_report }

/-- An administrative session: channel, custom mapping, group, me, channel
again — the last successful non-custom write is `channel 333`. -/
def sample_cmds : List AdminCmd :=
  [.setChannel "111" true, .setCustom "x.com" "999", .setGroup "222" true,
   .setMe, .setChannel "333" true, .setGroup "444" false]

/-! ### Helper lemmas -/

theorem splitOnChar_ne_nil (c : Char) (l : List Char) : splitOnChar c l ≠ [] := by
  induction l with
  | nil => simp [splitOnChar]
  | cons x xs ih =>
    by_cases h : x = c
    · simp [splitOnChar, h]
    · simp only [splitOnChar, if_neg h]
      cases hs : splitOnChar c xs with
      | nil => simp
      | cons y ys => simp

theorem splitOnChar_head (c : Char) (l : List Char) :
    (splitOnChar c l).head? = some (l.takeWhile (fun x => x != c)) := by
  induction l with
  | nil => simp [splitOnChar]
  | cons x xs ih =>
    by_cases h : x = c
    · simp [splitOnChar, h, List.takeWhile_cons]
    · have hb : (x != c) = true := by simp [h]
      simp only [splitOnChar, if_neg h]
      cases hs : splitOnChar c xs with
      | nil => exact absurd hs (splitOnChar_ne_nil c xs)
      | cons y ys =>
        rw [hs] at ih
        have hy := Option.some.inj (by simpa using ih)
        simp [List.takeWhile_cons, hb, hy]

theorem splitOnChar_second (c : Char) (l : List Char) (h : c ∈ l) :
    (splitOnChar c l).getD 1 [] = fieldAfter c l := by
  induction l with
  | nil => simp at h
  | cons x xs ih =>
    by_cases hx : x = c
    · subst hx
      have hb : (x != x) = false := by simp
      simp only [splitOnChar, if_pos rfl, fieldAfter, List.dropWhile_cons, hb,
        Bool.false_eq_true, if_false, List.tail_cons]
      have hh := splitOnChar_head x xs
      cases hs : splitOnChar x xs with
      | nil => exact absurd hs (splitOnChar_ne_nil x xs)
      | cons y ys =>
        rw [hs] at hh
        have hy := Option.some.inj (by simpa using hh)
        simp [hy]
    · have hxs : c ∈ xs := by
        rcases List.mem_cons.mp h with h1 | h1
        · exact absurd h1.symm hx
        · exact h1
      have hb : (x != c) = true := by simp [hx]
      simp only [splitOnChar, if_neg hx]
      cases hs : splitOnChar c xs with
      | nil => exact absurd hs (splitOnChar_ne_nil c xs)
      | cons y ys =>
        rw [hs] at ih
        have hfa : fieldAfter c (x :: xs) = fieldAfter c xs := by
          simp [fieldAfter, List.dropWhile_cons, hb]
        rw [hfa]
        simpa using ih hxs

theorem mem_insertBy {α : Type} (f : α → α → Bool) (x a : α) (l : List α)
    (h : a ∈ insertBy f x l) : a = x ∨ a ∈ l := by
  induction l with
  | nil => simpa [insertBy] using h
  | cons y ys ih =>
    by_cases hf : f x y = true
    · simp only [insertBy, if_pos hf] at h
      rcases List.mem_cons.mp h with h1 | h1
      · exact Or.inl h1
      · exact Or.inr h1
    · simp only [insertBy, if_neg hf] at h
      rcases List.mem_cons.mp h with h1 | h1
      · exact Or.inr (h1 ▸ List.mem_cons_self y ys)
      · rcases ih h1 with h2 | h2
        · exact Or.inl h2
        · exact Or.inr (List.mem_cons_of_mem y h2)

theorem pairwise_insertBy {α : Type} {R : α → α → Prop} (f : α → α → Bool)
    (htr : Transitive R) (hT : ∀ a b, f a b = true → R a b)
    (hF : ∀ a b, f a b = false → R b a) (x : α) (l : List α)
    (hp : l.Pairwise R) : (insertBy f x l).Pairwise R := by
  induction l with
  | nil => simp [insertBy]
  | cons y ys ih =>
    rcases List.pairwise_cons.mp hp with ⟨hy, hys⟩
    by_cases hf : f x y = true
    · simp only [insertBy, if_pos hf]
      refine List.pairwise_cons.mpr ⟨?_, hp⟩
      intro z hz
      rcases List.mem_cons.mp hz with h1 | h1
      · exact h1 ▸ hT x y hf
      · exact htr (hT x y hf) (hy z h1)
    · simp only [insertBy, if_neg hf]
      refine List.pairwise_cons.mpr ⟨?_, ih hys⟩
      intro z hz
      rcases mem_insertBy f x z ys hz with h1 | h1
      · exact h1 ▸ hF x y (Bool.not_eq_true _ ▸ hf)
      · exact hy z h1

theorem pairwise_sortBy {α : Type} {R : α → α → Prop} (f : α → α → Bool)
    (htr : Transitive R) (hT : ∀ a b, f a b = true → R a b)
    (hF : ∀ a b, f a b = false → R b a) (l : List α) :
    (sortBy f l).Pairwise R := by
  induction l with
  | nil => simp [sortBy]
  | cons x xs ih => exact pairwise_insertBy f htr hT hF x (sortBy f xs) ih

theorem zscoreDesc_true (a b : String × Nat) (h : zscoreDesc a b = true) :
    b.2 ≤ a.2 := by
  simp only [zscoreDesc, Bool.or_eq_true, Bool.and_eq_true, decide_eq_true_eq] at h
  rcases h with h | ⟨h, _⟩ <;> omega

theorem zscoreDesc_false (a b : String × Nat) (h : zscoreDesc a b = false) :
    a.2 ≤ b.2 := by
  simp only [zscoreDesc, Bool.or_eq_false_iff, Bool.and_eq_false_iff,
    decide_eq_false_iff_not] at h
  omega

theorem sortBy_zscoreDesc_pairwise (zs : List (String × Nat)) :
    (sortBy zscoreDesc zs).Pairwise (fun a b => b.2 ≤ a.2) := by
  refine pairwise_sortBy zscoreDesc ?_ zscoreDesc_true zscoreDesc_false zs
  intro a b c h1 h2
  exact le_trans h2 h1

theorem zrevrange_eq_drop_take (zs : List (String × Nat)) (offset limit : Nat)
    (h : 1 ≤ limit) :
    zrevrange zs (offset : Int) ((offset : Int) + (limit : Int) - 1)
      = ((zrevlist zs).drop offset).take limit := by
  simp only [zrevrange]
  have h0 : ¬ ((offset : Int) < 0) := by omega
  have h1 : ¬ ((offset : Int) + (limit : Int) - 1 < 0) := by omega
  rw [if_neg h0, if_neg h1]
  have hmax : max (offset : Int) 0 = (offset : Int) := by omega
  rw [hmax]
  set l := zrevlist zs with hl
  by_cases hc : min ((offset : Int) + (limit : Int) - 1) ((l.length : Int) - 1)
      < (offset : Int)
  · rw [if_pos hc]
    have hn : l.length ≤ offset := by
      rcases min_lt_iff.mp hc with hx | hx <;> omega
    rw [List.drop_eq_nil_of_le hn, List.take_nil]
  · rw [if_neg hc]
    push_neg at hc
    by_cases h2 : (offset : Int) + (limit : Int) - 1 ≤ (l.length : Int) - 1
    · rw [min_eq_left h2]
      have h3 : ((offset : Int) + (limit : Int) - 1 - (offset : Int) + 1).toNat
          = limit := by omega
      rw [h3, Int.toNat_ofNat]
    · push_neg at h2
      rw [min_eq_right (by omega)]
      have h3 : (((l.length : Int) - 1) - (offset : Int) + 1).toNat
          = l.length - offset := by omega
      rw [h3, Int.toNat_ofNat]
      have h4 : (l.drop offset).length = l.length - offset := List.length_drop offset l
      rw [List.take_of_length_le (le_of_eq h4),
        List.take_of_length_le (by omega : (l.drop offset).length ≤ limit)]

/-! Helper lemmas for the administrative state machine. -/

theorem run_recipients (cmds : List AdminCmd) :
    ∀ (st : BridgeState) (t : Target),
      st.default_recipients = recipients_of t →
      (run_commands st cmds).default_recipients
        = recipients_of (cmds.foldl target_step t) := by
  induction cmds with
  | nil => intro st t h; simpa [run_commands] using h
  | cons c cs ih =>
    intro st t h
    have hstep : (apply_set_target st c).default_recipients
        = recipients_of (target_step t c) := by
      cases c with
      | setMe => simp [apply_set_target, target_step, recipients_of]
      | setChannel id ok =>
        cases ok <;> simp [apply_set_target, target_step, recipients_of, h]
      | setGroup id ok =>
        cases ok <;> simp [apply_set_target, target_step, recipients_of, h]
      | setCustom domain id => simpa [apply_set_target, target_step] using h
      | invalid => simpa [apply_set_target, target_step] using h
    simpa [run_commands, List.foldl_cons] using
      ih (apply_set_target st c) (target_step t c) hstep

theorem wf_last_target (cmds : List AdminCmd) :
    ∀ t : Target, cmds.all wf_cmd = true → wf_target t = true →
      wf_target (cmds.foldl target_step t) = true := by
  induction cmds with
  | nil => intro t _ ht; simpa using ht
  | cons c cs ih =>
    intro t hall ht
    rw [List.all_cons, Bool.and_eq_true] at hall
    obtain ⟨hc, hcs⟩ := hall
    have hstep : wf_target (target_step t c) = true := by
      cases c with
      | setMe => simp [target_step, wf_target]
      | setChannel id ok =>
        cases ok
        · simpa [target_step] using ht
        · simpa [wf_cmd, wf_target, target_step] using hc
      | setGroup id ok =>
        cases ok
        · simpa [target_step] using ht
        · simpa [wf_cmd, wf_target, target_step] using hc
      | setCustom domain id => simpa [target_step] using ht
      | invalid => simpa [target_step] using ht
    simpa [List.foldl_cons] using ih (target_step t c) hcs hstep

theorem active_count_recipients_of (t : Target) (h : wf_target t = true) :
    active_count (recipients_of t) = 1 := by
  cases t with
  | tself => simp [active_count, recipients_of, truthyS, String.isEmpty]
  | channel id =>
    simp only [wf_target] at h
    simp [active_count, recipients_of, truthyS, h]
  | group id =>
    simp only [wf_target] at h
    simp [active_count, recipients_of, truthyS, h]

/-! ### Claim theorems -/

/-- C1 (code bug): the claim says a message whose key-value store write
raises must get a `451` transient-failure response and never a `250`.  In
the code, `store_email` catches the exception and returns `False`, and
`handle_message` ignores that boolean: evaluating the pipeline with a
raising Redis pipeline yields the `250` acceptance response while nothing
was stored — the message is silently dropped with a success reply. -/
theorem store_failure_still_accepted :
    c1_env.storeRaises = true
    ∧ (handle_message init_handler c1_env "msg_1").2.2 = "250 Message msg_1 accepted"
    ∧ (handle_message init_handler c1_env "msg_1").1.store = emptyStore
    ∧ retrieve_email (handle_message init_handler c1_env "msg_1").1.store "msg_1"
        = none := by
  decide

/-- C2 (counterexample): on `"a@b@c"` the code's `split('@')[1]` yields
`"b"`, while the claimed "lower-cased substring after the first `@`"
is `"b@c"`. -/
theorem extract_domain_counterexample :
    extract_domain "a@b@c" = "b"
    ∧ claimed_extract_domain "a@b@c" = "b@c"
    ∧ extract_domain "a@b@c" ≠ claimed_extract_domain "a@b@c" := by
  decide

/-- C2 (amended): for every address string, domain extraction returns the
whitespace-stripped, lower-cased field between the first `@` and the next
`@` (everything after the first `@` when there is only one), and the
sentinel `unknown` when the string contains no `@`; the specification's
example `extract_domain "a@b.example.com" = "b.example.com"` holds. -/
theorem extract_domain_spec (s : String) :
    ('@' ∈ s.data → extract_domain s = ⟨lowerL (trimL (fieldAfter '@' s.data))⟩)
    ∧ (¬ '@' ∈ s.data → extract_domain s = "unknown")
    ∧ extract_domain "a@b.example.com" = "b.example.com" := by
  refine ⟨?_, ?_, by decide⟩
  · intro h
    have hc : s.data.contains '@' = true := by simpa using h
    simp only [extract_domain, hc, if_true]
    rw [splitOnChar_second '@' s.data h]
  · intro h
    have hc : s.data.contains '@' = false := by simpa using h
    unfold extract_domain
    rw [hc]
    simp

/-- C2 (witness): the amended characterisation evaluated at `"a@b@c"`. -/
theorem extract_domain_spec_witness :
    extract_domain "a@b@c" = ⟨lowerL (trimL (fieldAfter '@' "a@b@c".data))⟩ :=
  (extract_domain_spec "a@b@c").1 (by decide)

/-- C3: routing precedence is exact — an exact `recipient_domain` match in
the mapping yields the custom target (even when a channel or group is
active); otherwise an active channel or group target is used; otherwise the
`self` fallback.  `wf_target` states that the active target's id, coming
from a command token, is non-empty. -/
theorem determine_recipient_precedence (mapping : List (String × String))
    (t : Target) (domain : String) (h : wf_target t = true) :
    determine_recipient mapping (recipients_of t) domain =
      match kvGet mapping domain with
      | some tid => ("custom", tid)
      | none =>
        match t with
        | .tself => ("me", "self")
        | .channel id => ("channel", id)
        | .group id => ("group", id) := by
  cases t with
  | tself =>
    cases hk : kvGet mapping domain <;>
      simp [determine_recipient, recipients_of, truthyS, hk]
  | channel id =>
    simp only [wf_target] at h
    cases hk : kvGet mapping domain <;>
      simp [determine_recipient, recipients_of, truthyS, hk, h]
  | group id =>
    simp only [wf_target] at h
    cases hk : kvGet mapping domain <;>
      simp [determine_recipient, recipients_of, truthyS, hk, h]

/-- C3 (witness): the specification's example — mapping `x.com → 999` with
channel `111` active routes `x.com` to `custom:999` and `y.com` to
`channel:111`. -/
theorem determine_recipient_precedence_witness :
    determine_recipient [("x.com", "999")] (recipients_of (.channel "111")) "x.com"
        = ("custom", "999")
    ∧ determine_recipient [("x.com", "999")] (recipients_of (.channel "111")) "y.com"
        = ("channel", "111") :=
  ⟨(determine_recipient_precedence [("x.com", "999")] (.channel "111") "x.com"
      (by decide)).trans (by decide),
   (determine_recipient_precedence [("x.com", "999")] (.channel "111") "y.com"
      (by decide)).trans (by decide)⟩

/-- C10: when a domain is given, `search_emails` reads the domain set and
never consults `offset`, so any two offsets give identical results. -/
theorem search_emails_domain_ignores_offset (st : Store) (d : String)
    (limit o1 o2 : Nat) :
    search_emails st (some d) limit o1 = search_emails st (some d) limit o2 := rfl

theorem retrieve_email_store_email (st : Store) (id raw : String) (meta : Metadata)
    (now ttl : Nat) :
    retrieve_email (store_email st id raw meta now ttl false).1 id
      = some ⟨raw, meta⟩ := by
  simp [store_email, store_pipeline, cleanup_old_indexes, retrieve_email,
    kvGet_kvSet_self]

theorem send_raises_none (env : Env) (counter : Nat)
    (mapping : List (String × String)) (recips : Recipients)
    (msg_id : String) (email_msg : EmailMsg) (metadata : Metadata)
    (hsend : env.sendRaises = true) :
    send_telegram_notification env counter mapping recips msg_id email_msg
      metadata = none := by
  simp only [send_telegram_notification, send_telegram_core, hsend]
  by_cases hr : (determine_recipient mapping recips
      metadata.recipient_domain).2.data.isEmpty = true
  · simp [hr]
  · simp [hr]

/-- C4: when storage succeeded and the Telegram transport call raises, the
exception is caught inside `_send_telegram_notification`: the handler still
returns the `250` acceptance response, the final store is exactly the store
produced by `store_email`, and the stored record is intact and retrievable. -/
theorem notification_failure_isolated (hs : HandlerState) (env : Env)
    (msg_id : String) (email_msg : EmailMsg) (hp : env.parse = .ok email_msg)
    (hst : env.storeRaises = false) (hsend : env.sendRaises = true) :
    (handle_message hs env msg_id).2.2 = "250 Message " ++ msg_id ++ " accepted"
    ∧ (handle_message hs env msg_id).1.store
        = (store_email hs.store msg_id env.raw
            (message_metadata env email_msg msg_id) env.now env.ttl false).1
    ∧ retrieve_email (handle_message hs env msg_id).1.store msg_id
        = some ⟨env.raw, message_metadata env email_msg msg_id⟩
    ∧ (handle_message hs env msg_id).2.1 = none := by
  have hrun : handle_message hs env msg_id
      = ({ hs with
            message_counter := hs.message_counter + 1
            store := (store_email hs.store msg_id env.raw
              (message_metadata env email_msg msg_id) env.now env.ttl false).1 },
         send_telegram_notification env (hs.message_counter + 1) hs.target_mapping
           hs.default_recipients msg_id email_msg
           (message_metadata env email_msg msg_id),
         "250 Message " ++ msg_id ++ " accepted") := by
    unfold handle_message handle_message_try
    rw [hp, hst]
  rw [hrun]
  exact ⟨rfl, rfl, retrieve_email_store_email hs.store msg_id env.raw
      (message_metadata env email_msg msg_id) env.now env.ttl,
    send_raises_none env (hs.message_counter + 1) hs.target_mapping
      hs.default_recipients msg_id email_msg
      (message_metadata env email_msg msg_id) hsend⟩

/-- C4 (witness): the property evaluated at a concrete ingestion whose
Telegram send raises. -/
theorem notification_failure_isolated_witness :
    (handle_message init_handler c4_env "msg_1").2.2 = "250 Message msg_1 accepted"
    ∧ retrieve_email (handle_message init_handler c4_env "msg_1").1.store "msg_1"
        = some ⟨c4_env.raw, message_metadata c4_env sample_msg "msg_1"⟩
    ∧ (handle_message init_handler c4_env "msg_1").2.1 = none :=
  ⟨(notification_failure_isolated init_handler c4_env "msg_1" sample_msg rfl rfl
      rfl).1,
   (notification_failure_isolated init_handler c4_env "msg_1" sample_msg rfl rfl
      rfl).2.2.1,
   (notification_failure_isolated init_handler c4_env "msg_1" sample_msg rfl rfl
      rfl).2.2.2⟩

/-- C5: `validate_domain_mx` is a total function (it never raises to its
caller — captured by its Lean type), and whenever the resolver-level MX
query raises an error that is not a lookup miss — the one exception that
reaches the top-level `except` — the message is appended to `errors` and
the partial report (the fields filled in so far, i.e. the initialised ones)
is still returned. -/
theorem validate_total_exception (r : Resolver) (cfg ts : String)
    (dom : Option String) (m : String)
    (h : r.mx (effective_target cfg dom) = .error (.other m)) :
    validate_domain_mx r cfg dom ts
      = { empty_report (effective_target cfg dom) ts with
          errors := ["Критическая ошибка: " ++ m] } := by
  simp only [validate_domain_mx, get_mx_records]
  rw [h]
  rfl

/-- C5 (witness): a resolver whose MX query reports a network failure. -/
theorem validate_total_exception_witness :
    validate_domain_mx fail_resolver "t.me" (some "x.com") "ts"
      = { empty_report "x.com" "ts" with
          errors := ["Критическая ошибка: network unreachable"] } :=
  (validate_total_exception fail_resolver "t.me" "ts" (some "x.com")
    "network unreachable" rfl).trans (by decide)

/-- C6: when MX resolution succeeds with at least one record and TXT
resolution fails, the report has non-empty `mx_records`, empty
`txt_records`, `has_mx = true`, and an empty `errors` list (in particular
no entry for the TXT failure): each record type's failure is caught
independently. -/
theorem validate_partial_txt (r : Resolver) (cfg ts : String)
    (dom : Option String) (mxs : List RawMx) (e : DnsErr)
    (hmx : r.mx (effective_target cfg dom) = .ok mxs) (hne : mxs ≠ [])
    (htxt : r.txt (effective_target cfg dom) = .error e) :
    (validate_domain_mx r cfg dom ts).mx_records ≠ []
    ∧ (validate_domain_mx r cfg dom ts).txt_records = []
    ∧ (validate_domain_mx r cfg dom ts).has_mx = true
    ∧ (validate_domain_mx r cfg dom ts).errors = [] := by
  simp only [validate_domain_mx, get_mx_records, get_txt_records]
  rw [hmx, htxt]
  refine ⟨?_, rfl, ?_, rfl⟩
  · simp [List.map_eq_nil_iff, hne]
  · simp [List.length_pos, hne]

/-- C6 (witness): a resolver with one MX record and a raising TXT query. -/
theorem validate_partial_txt_witness :
    (validate_domain_mx partial_resolver "t.me" (some "x.com") "ts").mx_records ≠ []
    ∧ (validate_domain_mx partial_resolver "t.me" (some "x.com") "ts").txt_records = []
    ∧ (validate_domain_mx partial_resolver "t.me" (some "x.com") "ts").has_mx = true
    ∧ (validate_domain_mx partial_resolver "t.me" (some "x.com") "ts").errors = [] :=
  validate_partial_txt partial_resolver "t.me" "ts" (some "x.com")
    [⟨10, "mx1.x.com.", some 300⟩] (.other "timeout") rfl (by decide) rfl

/-- C7: search without a domain returns the recency slice — offset applied
before limit over the descending-score order, expired ids silently dropped
by `retrieve_email` (so the result may be shorter than `limit`); the sorted
index is pairwise non-increasing in score; and on the specification's
example store (messages at epoch seconds 100, 200, 300) `search(limit=2)`
returns the ids for 300 then 200. -/
theorem search_emails_recency (st : Store) (limit offset : Nat) (h : 1 ≤ limit) :
    search_emails st none limit offset
        = (((zrevlist st.recency).drop offset).take limit).filterMap
            (retrieve_email st)
    ∧ (sortBy zscoreDesc st.recency).Pairwise (fun a b => b.2 ≤ a.2)
    ∧ (search_emails sample_store none 2 0).map (fun r => r.metadata.message_id)
        = ["id300", "id200"] := by
  refine ⟨?_, sortBy_zscoreDesc_pairwise st.recency, by decide⟩
  simp only [search_emails]
  rw [zrevrange_eq_drop_take st.recency offset limit h, List.take_take, min_self]

/-- C7 (witness): the example store evaluated through the theorem. -/
theorem search_emails_recency_witness :
    (search_emails sample_store none 2 0).map (fun r => r.metadata.message_id)
      = ["id300", "id200"] :=
  (search_emails_recency sample_store 2 0 (by decide)).2.2

/-- C8 (counterexample): for a report with `has_mx = false` (no MX
records), the formatted notification contains no DNS badge line at all —
the claimed `warn` badge is never rendered. -/
theorem dns_badge_missing_counterexample :
    badge_free_report.has_mx = false
    ∧ badge_free_meta.dns_report = some badge_free_report
    ∧ (format_notification 1 "msg_1" badge_free_meta "hello").filter isDnsLine
        = [] := by
  decide

/-- C8 (amended): the DNS badge line is rendered iff the attached report's
`mx_records` list is non-empty; when rendered it shows `ok` (`✅`) if
`has_mx` and `warn` (`⚠️`) otherwise, together with the MX record count.
(As the validator sets `has_mx = (mx_records ≠ [])`, a `has_mx = false`
report from the validator renders no badge.) -/
theorem dns_badge_when_mx (counter : Nat) (msg_id : String) (metadata : Metadata)
    (body_preview : String) (rep : Report) (h1 : metadata.dns_report = some rep)
    (h2 : rep.mx_records ≠ []) :
    dns_badge rep ∈ format_notification counter msg_id metadata body_preview
    ∧ dns_badge rep = "**DNS:** " ++ (if rep.has_mx then "✅" else "⚠️") ++ " "
        ++ Nat.repr rep.mx_records.length ++ " MX записей" := by
  refine ⟨?_, rfl⟩
  unfold format_notification
  rw [h1]
  have hne : rep.mx_records.isEmpty = false := by
    simpa [List.isEmpty_iff] using h2
  simp [hne]

/-- C8 (witness): the badge is present for a report with one MX record. -/
theorem dns_badge_when_mx_witness :
    dns_badge badge_report ∈ format_notification 1 "msg_1" badge_meta "hello" :=
  (dns_badge_when_mx 1 "msg_1" badge_meta "hello" badge_report rfl (by decide)).1

/-- C9: after any sequence of well-formed `set_target` commands, the
non-custom recipient slots hold exactly the configuration of the target set
by the last successful non-custom command (last writer wins), hence exactly
one of `me`/`channel`/`group` is active; and a `custom` mapping command
never changes the active non-custom target. -/
theorem set_target_last_writer (cmds : List AdminCmd)
    (h : cmds.all wf_cmd = true) :
    (run_commands init_bridge cmds).default_recipients
        = recipients_of (last_target cmds)
    ∧ active_count (run_commands init_bridge cmds).default_recipients = 1
    ∧ ∀ domain id,
        (apply_set_target (run_commands init_bridge cmds)
            (.setCustom domain id)).default_recipients
          = (run_commands init_bridge cmds).default_recipients := by
  have h1 : (run_commands init_bridge cmds).default_recipients
      = recipients_of (last_target cmds) :=
    run_recipients cmds init_bridge .tself rfl
  refine ⟨h1, ?_, ?_⟩
  · rw [h1]
    exact active_count_recipients_of _ (wf_last_target cmds .tself h rfl)
  · intro domain id
    rfl

/-- C9 (witness): a mixed administrative session; the last successful
non-custom write (`channel 333`) is the single active target. -/
theorem set_target_last_writer_witness :
    (run_commands init_bridge sample_cmds).default_recipients
        = recipients_of (last_target sample_cmds)
    ∧ active_count (run_commands init_bridge sample_cmds).default_recipients = 1 :=
  ⟨(set_target_last_writer sample_cmds (by decide)).1,
   (set_target_last_writer sample_cmds (by decide)).2.1⟩

end MailBridge
